import Mathlib

/-!
Lines Intersection: geometry core and simulation tick

A shallow embedding of `include/LineEquation.hpp`, `include/Game.hpp` and
`src/Game.cpp`.

Modelling conventions.

* `float` values are exact rationals (`ℚ`): every statement below is a
  statement in exact arithmetic. Rounding, infinities and NaN are outside
  the model.
* `std::numeric_limits<float>::epsilon()` is `2^-23` and
  `std::numeric_limits<float>::max()` is `2^128 - 2^104`.
* `int` values are mathematical integers (`Int`); signed overflow is
  undefined behaviour in the source and is outside the model.
* `std::array<PlayerBox, 4>` is a function on `Fin 4`.
* The window and renderer handles are external collaborators and carry no
  simulation state; they are omitted from `Game`.
-/

set_option linter.dupNamespace false

namespace LinesIntersection

/-! ## Constants (`Constants.hpp`, `<limits>`) -/

/-- The constant `constants::screen_width`. -/
def screen_width : Int := 960

/-- The constant `constants::screen_height`. -/
def screen_height : Int := 640

/-- The value of `std::numeric_limits<float>::epsilon()`, that is `2^-23`. -/
def float_epsilon : ℚ := 1 / 8388608

/-- The value of `std::numeric_limits<float>::max()`, that is `2^128 - 2^104`. -/
def float_max : ℚ := 340282346638528859811704183484516925440

/-! ## Data model (`Game.hpp`) -/

/-- The SDL point with `float` coordinates. -/
structure SDL_FPoint where
  x : ℚ
  y : ℚ
  deriving DecidableEq

/-- The SDL rectangle with `int` position and size. -/
structure SDL_Rect where
  x : Int
  y : Int
  w : Int
  h : Int
  deriving DecidableEq

/-- The SDL colour, four 8-bit channels. -/
structure SDL_Color where
  r : Nat
  g : Nat
  b : Nat
  a : Nat
  deriving DecidableEq

/-- A segment: `struct Line`. -/
structure Line where
  start_point : SDL_FPoint
  end_point : SDL_FPoint
  deriving DecidableEq

/-- An entity: `struct PlayerBox`. -/
structure PlayerBox where
  box_ : SDL_Rect
  color_ : SDL_Color
  vx_ : Int
  vy_ : Int
  deriving DecidableEq

/-- The simulation state: the data members of `class Game`. -/
structure Game where
  initialized_ : Bool
  running_ : Bool
  cell_size_ : Int
  cells_width_ : Int
  cells_height_ : Int
  shift_pressed_ : Bool
  player_boxes_ : Fin 4 → PlayerBox
  lines_intersection_ : SDL_FPoint

/-! ## `LineEquation.hpp` -/

/-- The function `std::min(a, b)`: `(b < a) ? b : a`. -/
def std_min (a b : ℚ) : ℚ := if b < a then b else a

/-- The function `std::max(a, b)`: `(a < b) ? b : a`. -/
def std_max (a b : ℚ) : ℚ := if a < b then b else a

/-- The comparator `FloatingPointSame(a, b)`:
`fabs(a - b) <= (fabs(a) > fabs(b) ? fabs(b) : fabs(a)) * epsilon`. -/
def FloatingPointSame (a b : ℚ) : Bool :=
  decide (|a - b| ≤ (if |a| > |b| then |b| else |a|) * float_epsilon)

/-- The comparator `FloatingPointGreaterThan(a, b)`:
`(a - b) > (fabs(a) < fabs(b) ? fabs(b) : fabs(a)) * epsilon`. -/
def FloatingPointGreaterThan (a b : ℚ) : Bool :=
  decide ((a - b) > (if |a| < |b| then |b| else |a|) * float_epsilon)

/-- The comparator `FloatingPointLessThan(a, b)`:
`(b - a) > (fabs(a) < fabs(b) ? fabs(b) : fabs(a)) * epsilon`. -/
def FloatingPointLessThan (a b : ℚ) : Bool :=
  decide ((b - a) > (if |a| < |b| then |b| else |a|) * float_epsilon)

/-- The function `LinearEquationCoefficients(x_1, y_1, x_2, y_2)` returns `{ A, B, C }`. -/
def LinearEquationCoefficients (x_1 y_1 x_2 y_2 : ℚ) : ℚ × ℚ × ℚ :=
  let A := y_2 - y_1
  let B := x_1 - x_2
  let C := A * x_1 + B * y_1
  (A, B, C)

/-! ## `Game::GetIntersectionPoint` -/

/-- The no-intersection value `{ max, max }` that `result_intersection` is
initialised with. -/
def no_intersection : SDL_FPoint := ⟨float_max, float_max⟩

/-- The method `Game::GetIntersectionPoint(line_1, line_2)`. -/
def GetIntersectionPoint (line_1 line_2 : Line) : SDL_FPoint :=
  let result_intersection : SDL_FPoint := ⟨float_max, float_max⟩
  let line_1_coefficients := LinearEquationCoefficients
    line_1.start_point.x line_1.start_point.y line_1.end_point.x line_1.end_point.y
  let line_2_coefficients := LinearEquationCoefficients
    line_2.start_point.x line_2.start_point.y line_2.end_point.x line_2.end_point.y
  let A1 := line_1_coefficients.1
  let B1 := line_1_coefficients.2.1
  let C1 := line_1_coefficients.2.2
  let A2 := line_2_coefficients.1
  let B2 := line_2_coefficients.2.1
  let C2 := line_2_coefficients.2.2
  let det := A1 * B2 - A2 * B1
  if det = 0 then
    result_intersection
  else
    let x := (B2 * C1 - B1 * C2) / det
    let y := (A1 * C2 - A2 * C1) / det
    let x_on_line_1 :=
      (FloatingPointLessThan (std_min line_1.start_point.x line_1.end_point.x) x
        || FloatingPointSame (std_min line_1.start_point.x line_1.end_point.x) x)
      && (FloatingPointLessThan x (std_max line_1.start_point.x line_1.end_point.x)
        || FloatingPointSame x (std_max line_1.start_point.x line_1.end_point.x))
    let y_on_line_1 :=
      (FloatingPointLessThan (std_min line_1.start_point.y line_1.end_point.y) y
        || FloatingPointSame (std_min line_1.start_point.y line_1.end_point.y) y)
      && (FloatingPointLessThan y (std_max line_1.start_point.y line_1.end_point.y)
        || FloatingPointSame y (std_max line_1.start_point.y line_1.end_point.y))
    let x_on_line_2 :=
      (FloatingPointLessThan (std_min line_2.start_point.x line_2.end_point.x) x
        || FloatingPointSame (std_min line_2.start_point.x line_2.end_point.x) x)
      && (FloatingPointLessThan x (std_max line_2.start_point.x line_2.end_point.x)
        || FloatingPointSame x (std_max line_2.start_point.x line_2.end_point.x))
    let y_on_line_2 :=
      (FloatingPointLessThan (std_min line_2.start_point.y line_2.end_point.y) y
        || FloatingPointSame (std_min line_2.start_point.y line_2.end_point.y) y)
      && (FloatingPointLessThan y (std_max line_2.start_point.y line_2.end_point.y)
        || FloatingPointSame y (std_max line_2.start_point.y line_2.end_point.y))
    if x_on_line_1 && y_on_line_1 && x_on_line_2 && y_on_line_2 then
      ⟨x, y⟩
    else
      result_intersection

/-- Division of `float`s with a zero divisor made observable: `none` when the
divisor is zero. -/
def checked_div (a b : ℚ) : Option ℚ :=
  if b = 0 then none else some (a / b)

/-- The method `Game::GetIntersectionPoint(line_1, line_2)` with both divisions by `det`
replaced by `checked_div`: the result is `none` exactly when a division by
zero is executed. -/
def GetIntersectionPointChecked (line_1 line_2 : Line) : Option SDL_FPoint :=
  let result_intersection : SDL_FPoint := ⟨float_max, float_max⟩
  let line_1_coefficients := LinearEquationCoefficients
    line_1.start_point.x line_1.start_point.y line_1.end_point.x line_1.end_point.y
  let line_2_coefficients := LinearEquationCoefficients
    line_2.start_point.x line_2.start_point.y line_2.end_point.x line_2.end_point.y
  let A1 := line_1_coefficients.1
  let B1 := line_1_coefficients.2.1
  let C1 := line_1_coefficients.2.2
  let A2 := line_2_coefficients.1
  let B2 := line_2_coefficients.2.1
  let C2 := line_2_coefficients.2.2
  let det := A1 * B2 - A2 * B1
  if det = 0 then
    some result_intersection
  else
    (checked_div (B2 * C1 - B1 * C2) det).bind fun x =>
    (checked_div (A1 * C2 - A2 * C1) det).bind fun y =>
    let x_on_line_1 :=
      (FloatingPointLessThan (std_min line_1.start_point.x line_1.end_point.x) x
        || FloatingPointSame (std_min line_1.start_point.x line_1.end_point.x) x)
      && (FloatingPointLessThan x (std_max line_1.start_point.x line_1.end_point.x)
        || FloatingPointSame x (std_max line_1.start_point.x line_1.end_point.x))
    let y_on_line_1 :=
      (FloatingPointLessThan (std_min line_1.start_point.y line_1.end_point.y) y
        || FloatingPointSame (std_min line_1.start_point.y line_1.end_point.y) y)
      && (FloatingPointLessThan y (std_max line_1.start_point.y line_1.end_point.y)
        || FloatingPointSame y (std_max line_1.start_point.y line_1.end_point.y))
    let x_on_line_2 :=
      (FloatingPointLessThan (std_min line_2.start_point.x line_2.end_point.x) x
        || FloatingPointSame (std_min line_2.start_point.x line_2.end_point.x) x)
      && (FloatingPointLessThan x (std_max line_2.start_point.x line_2.end_point.x)
        || FloatingPointSame x (std_max line_2.start_point.x line_2.end_point.x))
    let y_on_line_2 :=
      (FloatingPointLessThan (std_min line_2.start_point.y line_2.end_point.y) y
        || FloatingPointSame (std_min line_2.start_point.y line_2.end_point.y) y)
      && (FloatingPointLessThan y (std_max line_2.start_point.y line_2.end_point.y)
        || FloatingPointSame y (std_max line_2.start_point.y line_2.end_point.y))
    if x_on_line_1 && y_on_line_1 && x_on_line_2 && y_on_line_2 then
      some ⟨x, y⟩
    else
      some result_intersection

/-! ### Names for the intermediate values of `GetIntersectionPoint` -/

/-- The coefficients `(A, B, C)` of the supporting line of a segment, as
`GetIntersectionPoint` obtains them. -/
def coefficients (l : Line) : ℚ × ℚ × ℚ :=
  LinearEquationCoefficients l.start_point.x l.start_point.y l.end_point.x l.end_point.y

/-- The local `det` of `GetIntersectionPoint`: `A1 * B2 - A2 * B1`. -/
def det (line_1 line_2 : Line) : ℚ :=
  (coefficients line_1).1 * (coefficients line_2).2.1
    - (coefficients line_2).1 * (coefficients line_1).2.1

/-- The local `x` of `GetIntersectionPoint`: `(B2 * C1 - B1 * C2) / det`. -/
def candidate_x (line_1 line_2 : Line) : ℚ :=
  ((coefficients line_2).2.1 * (coefficients line_1).2.2
    - (coefficients line_1).2.1 * (coefficients line_2).2.2) / det line_1 line_2

/-- The local `y` of `GetIntersectionPoint`: `(A1 * C2 - A2 * C1) / det`. -/
def candidate_y (line_1 line_2 : Line) : ℚ :=
  ((coefficients line_1).1 * (coefficients line_2).2.2
    - (coefficients line_2).1 * (coefficients line_1).2.2) / det line_1 line_2

/-- One containment condition of `GetIntersectionPoint`, for the two endpoint
coordinates `p`, `q` of a segment on one axis and a value `v`:
`(LessThan(min, v) || Same(min, v)) && (LessThan(v, max) || Same(v, max))`. -/
def on_range (p q v : ℚ) : Bool :=
  (FloatingPointLessThan (std_min p q) v || FloatingPointSame (std_min p q) v)
    && (FloatingPointLessThan v (std_max p q) || FloatingPointSame v (std_max p q))

/-- The conjunction `x_on_line_1 && y_on_line_1 && x_on_line_2 && y_on_line_2`
at a point `(x, y)`. -/
def on_both_segments (line_1 line_2 : Line) (x y : ℚ) : Bool :=
  on_range line_1.start_point.x line_1.end_point.x x
    && on_range line_1.start_point.y line_1.end_point.y y
    && on_range line_2.start_point.x line_2.end_point.x x
    && on_range line_2.start_point.y line_2.end_point.y y

/-- The constructor `Game::Game()`. The result of `Initialize()`, which only
talks to the windowing library, is a parameter. -/
def Game.Game (initialize_result : Bool) : Game :=
  let cell_size_ : Int := 32
  let box_size : Int := 10
  { initialized_ := initialize_result
    running_ := false
    cell_size_ := cell_size_
    cells_width_ := Int.tdiv screen_width cell_size_
    cells_height_ := Int.tdiv screen_height cell_size_
    shift_pressed_ := false
    player_boxes_ := fun i =>
      match i with
      | 0 =>
        { box_ := { x := Int.tdiv (screen_width * 1) 3 - Int.tdiv box_size 2
                    y := Int.tdiv (screen_height * 1) 3 - Int.tdiv box_size 2
                    w := box_size, h := box_size }
          color_ := ⟨0xFF, 0x00, 0x00, 0xFF⟩, vx_ := 0, vy_ := 0 }
      | 1 =>
        { box_ := { x := Int.tdiv (screen_width * 2) 3 - Int.tdiv box_size 2
                    y := Int.tdiv (screen_height * 1) 3 - Int.tdiv box_size 2
                    w := box_size, h := box_size }
          color_ := ⟨0xA0, 0x00, 0x00, 0xFF⟩, vx_ := 0, vy_ := 0 }
      | 2 =>
        { box_ := { x := Int.tdiv (screen_width * 1) 3 - Int.tdiv box_size 2
                    y := Int.tdiv (screen_height * 2) 3 - Int.tdiv box_size 2
                    w := box_size, h := box_size }
          color_ := ⟨0x00, 0xFF, 0x00, 0xFF⟩, vx_ := 0, vy_ := 0 }
      | 3 =>
        { box_ := { x := Int.tdiv (screen_width * 2) 3 - Int.tdiv box_size 2
                    y := Int.tdiv (screen_height * 2) 3 - Int.tdiv box_size 2
                    w := box_size, h := box_size }
          color_ := ⟨0x00, 0xA0, 0x00, 0xFF⟩, vx_ := 0, vy_ := 0 }
    lines_intersection_ := ⟨-1, -1⟩ }

/-- The body of the loop of `Game::Tick` at index `i`:
`box_.x += vx_; box_.y += vy_;` on `player_boxes_[i]`. -/
def Tick_body (boxes : Fin 4 → PlayerBox) (i : Fin 4) : Fin 4 → PlayerBox :=
  let boxes_x := Function.update boxes i
    { boxes i with box_ := { (boxes i).box_ with x := (boxes i).box_.x + (boxes i).vx_ } }
  Function.update boxes_x i
    { boxes_x i with box_ := { (boxes_x i).box_ with y := (boxes_x i).box_.y + (boxes_x i).vy_ } }

/-- The method `Game::Tick()`: the loop over the four boxes, then the two segments
built from the box centres (in `int` arithmetic, converted to `float`), then
the stored intersection. -/
def Tick (g : Game) : Game :=
  let player_boxes_ := ([0, 1, 2, 3] : List (Fin 4)).foldl Tick_body g.player_boxes_
  let line_1 : Line :=
    { start_point :=
        ⟨((player_boxes_ 0).box_.x + Int.tdiv (player_boxes_ 0).box_.w 2 : Int),
          ((player_boxes_ 0).box_.y + Int.tdiv (player_boxes_ 0).box_.h 2 : Int)⟩
      end_point :=
        ⟨((player_boxes_ 1).box_.x + Int.tdiv (player_boxes_ 1).box_.w 2 : Int),
          ((player_boxes_ 1).box_.y + Int.tdiv (player_boxes_ 1).box_.h 2 : Int)⟩ }
  let line_2 : Line :=
    { start_point :=
        ⟨((player_boxes_ 2).box_.x + Int.tdiv (player_boxes_ 2).box_.w 2 : Int),
          ((player_boxes_ 2).box_.y + Int.tdiv (player_boxes_ 2).box_.h 2 : Int)⟩
      end_point :=
        ⟨((player_boxes_ 3).box_.x + Int.tdiv (player_boxes_ 3).box_.w 2 : Int),
          ((player_boxes_ 3).box_.y + Int.tdiv (player_boxes_ 3).box_.h 2 : Int)⟩ }
  { g with
    player_boxes_ := player_boxes_
    lines_intersection_ := GetIntersectionPoint line_1 line_2 }

/-- The centre `(x + w / 2, y + h / 2)` of a box, computed in `int` arithmetic
and converted to `float`. -/
def box_centre (b : PlayerBox) : SDL_FPoint :=
  ⟨(b.box_.x + Int.tdiv b.box_.w 2 : Int), (b.box_.y + Int.tdiv b.box_.h 2 : Int)⟩

/-- The intersection of the segment joining the centres of boxes 0 and 1 with
the segment joining the centres of boxes 2 and 3. -/
def centres_intersection (boxes : Fin 4 → PlayerBox) : SDL_FPoint :=
  GetIntersectionPoint ⟨box_centre (boxes 0), box_centre (boxes 1)⟩
    ⟨box_centre (boxes 2), box_centre (boxes 3)⟩

/-- A box displaced by its own velocity, everything else kept. -/
def moved (b : PlayerBox) : PlayerBox :=
  { b with box_ := { b.box_ with x := b.box_.x + b.vx_, y := b.box_.y + b.vy_ } }

/-! ## `Game::HandleEvents` -/

/-- The key symbols that `HandleEvents` distinguishes; every other key is
`other`. -/
inductive SDL_Keycode where
  | SDLK_LSHIFT
  | SDLK_w
  | SDLK_a
  | SDLK_s
  | SDLK_d
  | SDLK_UP
  | SDLK_DOWN
  | SDLK_LEFT
  | SDLK_RIGHT
  | other
  deriving DecidableEq

/-- The events that `HandleEvents` distinguishes by `e.type`; every other
event type is `other`. -/
inductive SDL_Event where
  | SDL_QUIT
  | SDL_KEYDOWN (sym : SDL_Keycode)
  | SDL_KEYUP (sym : SDL_Keycode)
  | other
  deriving DecidableEq

/-- The assignment `player_boxes_[i].vx_ = v`. -/
def set_vx (g : Game) (i : Fin 4) (v : Int) : Game :=
  { g with player_boxes_ := Function.update g.player_boxes_ i { g.player_boxes_ i with vx_ := v } }

/-- The assignment `player_boxes_[i].vy_ = v`. -/
def set_vy (g : Game) (i : Fin 4) (v : Int) : Game :=
  { g with player_boxes_ := Function.update g.player_boxes_ i { g.player_boxes_ i with vy_ := v } }

/-- The body of the polling loop of `HandleEvents` after the quit test: the
chain of `if` statements on `e.key.keysym.sym` for a key-down event and for a
key-up event. -/
def HandleEvents_body (g : Game) (e : SDL_Event) : Game :=
  let speed : Int := 5
  match e with
  | SDL_Event.SDL_KEYDOWN sym =>
    let g := if sym = SDL_Keycode.SDLK_LSHIFT then { g with shift_pressed_ := true } else g
    let g := if sym = SDL_Keycode.SDLK_w then
      set_vy g (if g.shift_pressed_ then 1 else 0) (-speed) else g
    let g := if sym = SDL_Keycode.SDLK_a then
      set_vx g (if g.shift_pressed_ then 1 else 0) (-speed) else g
    let g := if sym = SDL_Keycode.SDLK_s then
      set_vy g (if g.shift_pressed_ then 1 else 0) speed else g
    let g := if sym = SDL_Keycode.SDLK_d then
      set_vx g (if g.shift_pressed_ then 1 else 0) speed else g
    let g := if sym = SDL_Keycode.SDLK_UP then
      set_vy g (if g.shift_pressed_ then 3 else 2) (-speed) else g
    let g := if sym = SDL_Keycode.SDLK_DOWN then
      set_vy g (if g.shift_pressed_ then 3 else 2) speed else g
    let g := if sym = SDL_Keycode.SDLK_LEFT then
      set_vx g (if g.shift_pressed_ then 3 else 2) (-speed) else g
    let g := if sym = SDL_Keycode.SDLK_RIGHT then
      set_vx g (if g.shift_pressed_ then 3 else 2) speed else g
    g
  | SDL_Event.SDL_KEYUP sym =>
    let g := if sym = SDL_Keycode.SDLK_LSHIFT then { g with shift_pressed_ := false } else g
    let g := if sym = SDL_Keycode.SDLK_w then set_vy (set_vy g 0 0) 1 0 else g
    let g := if sym = SDL_Keycode.SDLK_a then set_vx (set_vx g 0 0) 1 0 else g
    let g := if sym = SDL_Keycode.SDLK_s then set_vy (set_vy g 0 0) 1 0 else g
    let g := if sym = SDL_Keycode.SDLK_d then set_vx (set_vx g 0 0) 1 0 else g
    let g := if sym = SDL_Keycode.SDLK_UP then set_vy (set_vy g 2 0) 3 0 else g
    let g := if sym = SDL_Keycode.SDLK_DOWN then set_vy (set_vy g 2 0) 3 0 else g
    let g := if sym = SDL_Keycode.SDLK_LEFT then set_vx (set_vx g 2 0) 3 0 else g
    let g := if sym = SDL_Keycode.SDLK_RIGHT then set_vx (set_vx g 2 0) 3 0 else g
    g
  | _ => g

/-- The method `Game::HandleEvents()` on the queue of pending events that
`SDL_PollEvent` hands out one by one. The result is the new state and the
events left in the queue: on a quit event the method sets `running_ = false`
and returns at once. -/
def HandleEvents : Game → List SDL_Event → Game × List SDL_Event
  | g, [] => (g, [])
  | g, e :: pending =>
    if e = SDL_Event.SDL_QUIT then ({ g with running_ := false }, pending)
    else HandleEvents (HandleEvents_body g e) pending

/-! ### Vocabulary for the key events -/

/-- The eight movement keys: W, A, S, D and the four arrow keys. -/
def movement_key (k : SDL_Keycode) : Bool :=
  match k with
  | SDL_Keycode.SDLK_w | SDL_Keycode.SDLK_a | SDL_Keycode.SDLK_s | SDL_Keycode.SDLK_d
  | SDL_Keycode.SDLK_UP | SDL_Keycode.SDLK_DOWN | SDL_Keycode.SDLK_LEFT
  | SDL_Keycode.SDLK_RIGHT => true
  | _ => false

/-- The first entity of the pair of a movement key: 0 for W, A, S, D and 2 for
the arrow keys. -/
def pair_first (k : SDL_Keycode) : Fin 4 :=
  match k with
  | SDL_Keycode.SDLK_UP | SDL_Keycode.SDLK_DOWN | SDL_Keycode.SDLK_LEFT
  | SDL_Keycode.SDLK_RIGHT => 2
  | _ => 0

/-- The second entity of the pair of a movement key: 1 for W, A, S, D and 3
for the arrow keys. -/
def pair_second (k : SDL_Keycode) : Fin 4 :=
  match k with
  | SDL_Keycode.SDLK_UP | SDL_Keycode.SDLK_DOWN | SDL_Keycode.SDLK_LEFT
  | SDL_Keycode.SDLK_RIGHT => 3
  | _ => 1

/-- Whether a movement key acts on the component `vy` (W, S, Up, Down) rather
than on `vx` (A, D, Left, Right). -/
def key_vertical (k : SDL_Keycode) : Bool :=
  match k with
  | SDL_Keycode.SDLK_w | SDL_Keycode.SDLK_s | SDL_Keycode.SDLK_UP
  | SDL_Keycode.SDLK_DOWN => true
  | _ => false

/-- The velocity that a movement key stands for: `-5` for W, Up, A, Left and
`+5` for S, Down, D, Right. -/
def key_velocity (k : SDL_Keycode) : Int :=
  match k with
  | SDL_Keycode.SDLK_w | SDL_Keycode.SDLK_UP | SDL_Keycode.SDLK_a
  | SDL_Keycode.SDLK_LEFT => -5
  | _ => 5

/-! ## `Game::Render` -/

/-- The SDL rectangle with `float` position and size. -/
structure SDL_FRect where
  x : ℚ
  y : ℚ
  w : ℚ
  h : ℚ
  deriving DecidableEq

/-- The part of `Game::Render()` that depends on the stored intersection: the
`collision_box` outlined when both coordinates differ from the largest
`float`, and nothing otherwise. -/
def Render_collision_box (g : Game) : Option SDL_FRect :=
  if g.lines_intersection_.x ≠ float_max ∧ g.lines_intersection_.y ≠ float_max then
    let box_size : ℚ := 10
    some ⟨g.lines_intersection_.x - box_size / 2, g.lines_intersection_.y - box_size / 2,
      box_size, box_size⟩
  else
    none

/-! ## `Game::Run` -/

/-- The fixed step `ms = 1.0 / 60.0` of `Run`. -/
def ms : ℚ := 1 / 60

/-- The local variables of `Run` that live across iterations. -/
structure Run_locals where
  last_time : Nat
  delta : ℚ
  timer : ℚ
  frames : Int
  ticks : Int
  deriving DecidableEq

/-- What the platform hands to one outer iteration of `Run`: the performance
counter and its frequency, the queue of pending events, and the value of
`SDL_GetTicks()` read after rendering. -/
structure Run_inputs where
  now : Nat
  frequency : Nat
  events : List SDL_Event
  sdl_ticks : Nat

/-- The inner loop of `Run`:
`while (delta >= ms) { Tick(); delta -= ms; ++ticks; }`. -/
def Run_drain (g : Game) (delta : ℚ) (ticks : Int) : Game × ℚ × Int :=
  if ms ≤ delta then Run_drain (Tick g) (delta - ms) (ticks + 1) else (g, delta, ticks)
termination_by ⌊delta / ms⌋₊
decreasing_by
  have hms : (0 : ℚ) < ms := by norm_num [ms]
  have hone : (1 : ℚ) ≤ delta / ms := by rwa [le_div_iff₀ hms, one_mul]
  have hsub : (delta - ms) / ms = delta / ms - 1 := by
    field_simp
  rw [hsub, Nat.floor_sub_one]
  have hpos : 0 < ⌊delta / ms⌋₊ := Nat.floor_pos.mpr hone
  omega

/-- The local `elapsed` of `Run`: the unsigned 64-bit difference
`now - last_time` divided by the performance frequency. -/
def Run_elapsed (now last_time frequency : Nat) : ℚ :=
  (((now + 2 ^ 64 - last_time) % 2 ^ 64 : Nat) : ℚ) / (frequency : ℚ)

/-- One outer iteration of `Run` up to and including `Render(); ++frames;`:
the elapsed time is added to `delta`, the events are handled, the accumulator
is drained, and the frame is rendered. `Render` does not change the state. -/
def Run_iteration_body (inp : Run_inputs) (s : Game × Run_locals) : Game × Run_locals :=
  let elapsed : ℚ := Run_elapsed inp.now s.2.last_time inp.frequency
  let last_time := inp.now
  let delta := s.2.delta + elapsed
  let handled := (HandleEvents s.1 inp.events).1
  let drained := Run_drain handled delta s.2.ticks
  let frames := s.2.frames + 1
  (drained.1,
    { last_time := last_time, delta := drained.2.1, timer := s.2.timer, frames := frames,
      ticks := drained.2.2 })

/-- One outer iteration of `Run`: the body above, then the once-a-second
reset `if (SDL_GetTicks() - timer > 1000.0)` of the two counters. -/
def Run_iteration (inp : Run_inputs) (s : Game × Run_locals) : Game × Run_locals :=
  let after := Run_iteration_body inp s
  if (inp.sdl_ticks : ℚ) - after.2.timer > 1000 then
    (after.1, { after.2 with timer := after.2.timer + 1000, frames := 0, ticks := 0 })
  else
    after

/-- The outer loop `while (running_)` of `Run`, over the inputs of the
successive iterations. -/
def Run_loop : List Run_inputs → Game × Run_locals → Game × Run_locals
  | [], s => s
  | inp :: later, s =>
    if s.1.running_ = true then Run_loop later (Run_iteration inp s) else s

/-- The method `Game::Run()`: nothing when the game is not initialised;
otherwise `running_ = true`, the locals are set up from the first readings of
the performance counter and of `SDL_GetTicks()`, and the outer loop runs. -/
def Run (g : Game) (counter_start ticks_start : Nat) (inputs : List Run_inputs) : Game :=
  if g.initialized_ = false then g
  else
    (Run_loop inputs
      ({ g with running_ := true },
        { last_time := counter_start, delta := 0, timer := (ticks_start : ℚ), frames := 0,
          ticks := 0 })).1

/-! ## Example states and inputs -/

/-- An example state: the modifier is held and every entity moves at
`(3, 4)`. -/
def moving_example : Game :=
  { Game.Game true with
    shift_pressed_ := true
    player_boxes_ := fun _ => ⟨⟨0, 0, 10, 10⟩, ⟨0, 0, 0, 0⟩, 3, 4⟩ }

/-- An example of the inputs of one outer iteration of `Run`: the counter has
advanced by one at a frequency of 20, so `1/20` has elapsed, and the queue
holds key-down D, then the quit event, then key-down W. -/
def quit_example_inputs : Run_inputs :=
  { now := 1
    frequency := 20
    events := [SDL_Event.SDL_KEYDOWN SDL_Keycode.SDLK_d, SDL_Event.SDL_QUIT,
      SDL_Event.SDL_KEYDOWN SDL_Keycode.SDLK_w]
    sdl_ticks := 0 }

/-- An example of the state at the start of an outer iteration of `Run`: the
state built by the constructor with `running_` set, and fresh locals. -/
def quit_example_start : Game × Run_locals :=
  ({ Game.Game true with running_ := true },
    { last_time := 0, delta := 0, timer := 0, frames := 0, ticks := 0 })

/-! ## Shared lemmas -/

/-- The function `GetIntersectionPoint` in terms of its named intermediate
values. -/
theorem GetIntersectionPoint_eq (line_1 line_2 : Line) :
    GetIntersectionPoint line_1 line_2 =
      if det line_1 line_2 = 0 then no_intersection
      else if on_both_segments line_1 line_2
          (candidate_x line_1 line_2) (candidate_y line_1 line_2) = true then
        ⟨candidate_x line_1 line_2, candidate_y line_1 line_2⟩
      else no_intersection := by
  rfl

/-- A zero determinant takes the first branch of `GetIntersectionPoint`. -/
theorem GetIntersectionPoint_of_det_eq_zero (line_1 line_2 : Line)
    (h : det line_1 line_2 = 0) :
    GetIntersectionPoint line_1 line_2 = ⟨float_max, float_max⟩ := by
  rw [GetIntersectionPoint_eq, if_pos h]
  rfl

/-- The loop of `Tick` displaces every box by its own velocity. -/
theorem Tick_player_boxes (g : Game) :
    (Tick g).player_boxes_ = fun i => moved (g.player_boxes_ i) := by
  funext i
  fin_cases i <;> simp [Tick, Tick_body, moved, Function.update]

/-- The intersection stored by `Tick` is the one of the displaced boxes. -/
theorem Tick_lines_intersection (g : Game) :
    (Tick g).lines_intersection_ = centres_intersection (Tick g).player_boxes_ := by
  rfl

/-- The scale of `FloatingPointSame` is the smaller magnitude. -/
theorem smaller_magnitude (a b : ℚ) :
    (if |a| > |b| then |b| else |a|) = min |a| |b| := by
  split_ifs with h
  · exact (min_eq_right h.le).symm
  · exact (min_eq_left (not_lt.mp h)).symm

/-- The scale of `FloatingPointGreaterThan` and of `FloatingPointLessThan` is
the larger magnitude. -/
theorem larger_magnitude (a b : ℚ) :
    (if |a| < |b| then |b| else |a|) = max |a| |b| := by
  split_ifs with h
  · exact (max_eq_right h.le).symm
  · exact (max_eq_left (not_lt.mp h)).symm

/-- The comparator `FloatingPointSame` as an inequality. -/
theorem FloatingPointSame_iff (a b : ℚ) :
    FloatingPointSame a b = true ↔ |a - b| ≤ min |a| |b| * float_epsilon := by
  unfold FloatingPointSame
  rw [decide_eq_true_eq, smaller_magnitude]

/-- The comparator `FloatingPointGreaterThan` as an inequality. -/
theorem FloatingPointGreaterThan_iff (a b : ℚ) :
    FloatingPointGreaterThan a b = true ↔ a - b > max |a| |b| * float_epsilon := by
  unfold FloatingPointGreaterThan
  rw [decide_eq_true_eq, larger_magnitude]

/-- The comparator `FloatingPointLessThan` as an inequality. -/
theorem FloatingPointLessThan_iff (a b : ℚ) :
    FloatingPointLessThan a b = true ↔ b - a > max |a| |b| * float_epsilon := by
  unfold FloatingPointLessThan
  rw [decide_eq_true_eq, larger_magnitude]

/-- The machine epsilon is positive. -/
theorem float_epsilon_pos : (0 : ℚ) < float_epsilon := by
  norm_num [float_epsilon]

/-- `Tick` does not touch the modifier flag. -/
theorem Tick_shift_pressed (g : Game) : (Tick g).shift_pressed_ = g.shift_pressed_ := by
  rfl

/-- `Tick` does not touch the `running_` and `initialized_` flags. -/
theorem Tick_flags (g : Game) :
    (Tick g).running_ = g.running_ ∧ (Tick g).initialized_ = g.initialized_ := by
  exact ⟨rfl, rfl⟩

/-- Two pairs of segments whose determinants are opposite, whose candidates
agree and whose containment tests agree have the same intersection result. -/
theorem GetIntersectionPoint_congr (l1 l2 m1 m2 : Line)
    (hdet : det m1 m2 = -det l1 l2)
    (hx : candidate_x m1 m2 = candidate_x l1 l2)
    (hy : candidate_y m1 m2 = candidate_y l1 l2)
    (hon : ∀ x y : ℚ, on_both_segments m1 m2 x y = on_both_segments l1 l2 x y) :
    GetIntersectionPoint m1 m2 = GetIntersectionPoint l1 l2 := by
  rw [GetIntersectionPoint_eq, GetIntersectionPoint_eq, hx, hy, hon, hdet]
  by_cases h : det l1 l2 = 0
  · simp [h]
  · simp [h]

/-- A quotient is unchanged when numerator and denominator change sign
together. -/
theorem div_of_opposite (n d n2 d2 : ℚ) (hn : n2 = -n) (hd : d2 = -d) : n2 / d2 = n / d := by
  rw [hn, hd, neg_div_neg_eq]

/-- The boxes after one key-up event of a movement key. -/
theorem key_up_boxes (g : Game) (k : SDL_Keycode) (hk : movement_key k = true) (i : Fin 4) :
    (HandleEvents g [SDL_Event.SDL_KEYUP k]).1.player_boxes_ i =
      if i = pair_first k ∨ i = pair_second k then
        (if key_vertical k = true then { g.player_boxes_ i with vy_ := 0 }
          else { g.player_boxes_ i with vx_ := 0 })
      else g.player_boxes_ i := by
  cases k <;> simp [movement_key] at hk <;> fin_cases i <;>
    simp [HandleEvents, HandleEvents_body, set_vx, set_vy, key_vertical, pair_first, pair_second,
      Function.update]

/-- The boxes after one key-down event of a movement key. -/
theorem key_down_boxes (g : Game) (k : SDL_Keycode) (hk : movement_key k = true) (i : Fin 4) :
    (HandleEvents g [SDL_Event.SDL_KEYDOWN k]).1.player_boxes_ i =
      if i = (if g.shift_pressed_ = true then pair_second k else pair_first k) then
        (if key_vertical k = true then { g.player_boxes_ i with vy_ := key_velocity k }
          else { g.player_boxes_ i with vx_ := key_velocity k })
      else g.player_boxes_ i := by
  cases k <;> simp [movement_key] at hk <;> cases hs : g.shift_pressed_ <;> fin_cases i <;>
    simp [HandleEvents, HandleEvents_body, set_vx, set_vy, key_vertical, pair_first, pair_second,
      key_velocity, Function.update, hs]

/-- A movement key event leaves the modifier flag alone. -/
theorem key_flags (g : Game) (k : SDL_Keycode) (hk : movement_key k = true) :
    (HandleEvents g [SDL_Event.SDL_KEYDOWN k]).1.shift_pressed_ = g.shift_pressed_
    ∧ (HandleEvents g [SDL_Event.SDL_KEYUP k]).1.shift_pressed_ = g.shift_pressed_ := by
  cases k <;> simp [movement_key] at hk <;>
    simp [HandleEvents, HandleEvents_body, set_vx, set_vy]

/-- The inner loop of `Run` runs `Tick` once per whole step held by the
accumulator. -/
theorem Run_drain_eq (g : Game) (delta : ℚ) (ticks : Int) :
    Run_drain g delta ticks
      = (Tick^[⌊delta / ms⌋₊] g, delta - (⌊delta / ms⌋₊ : ℚ) * ms, ticks + (⌊delta / ms⌋₊ : Int)) := by
  have hms : (0 : ℚ) < ms := by norm_num [ms]
  have key : ∀ n : Nat, ∀ (g : Game) (delta : ℚ) (ticks : Int), ⌊delta / ms⌋₊ = n →
      Run_drain g delta ticks = (Tick^[n] g, delta - (n : ℚ) * ms, ticks + (n : Int)) := by
    intro n
    induction n with
    | zero =>
      intro g delta ticks hn
      have hlt : delta < ms := by
        have h1 : delta / ms < 1 := Nat.floor_eq_zero.mp hn
        rwa [div_lt_one hms] at h1
      rw [Run_drain, if_neg (not_le.mpr hlt)]
      simp
    | succ n ih =>
      intro g delta ticks hn
      have hone : (1 : ℚ) ≤ delta / ms := by
        apply Nat.floor_pos.mp
        omega
      have hle : ms ≤ delta := by rwa [le_div_iff₀ hms, one_mul] at hone
      have hsub : (delta - ms) / ms = delta / ms - 1 := by
        field_simp
      have hfloor : ⌊(delta - ms) / ms⌋₊ = n := by
        rw [hsub, Nat.floor_sub_one, hn]
        rfl
      rw [Run_drain, if_pos hle, ih (Tick g) (delta - ms) (ticks + 1) hfloor,
        Function.iterate_succ_apply]
      refine Prod.ext rfl (Prod.ext ?_ ?_)
      · simp only [Nat.cast_add, Nat.cast_one]
        ring
      · simp only [Nat.cast_add, Nat.cast_one]
        ring
  exact key _ g delta ticks rfl

/-- Any number of ticks leaves the `running_` flag alone. -/
theorem Tick_iterate_running (g : Game) (n : Nat) : (Tick^[n] g).running_ = g.running_ := by
  induction n with
  | zero => rfl
  | succ n ih => rw [Function.iterate_succ_apply', (Tick_flags _).1, ih]

/-- A quit event ends `HandleEvents`: the events queued before it are
dispatched, `running_` is cleared, and the events queued after it are left in
the queue. -/
theorem HandleEvents_quit (g : Game) (before after : List SDL_Event)
    (hbefore : SDL_Event.SDL_QUIT ∉ before) :
    HandleEvents g (before ++ SDL_Event.SDL_QUIT :: after)
      = ({ (HandleEvents g before).1 with running_ := false }, after) := by
  induction before generalizing g with
  | nil => simp [HandleEvents]
  | cons e before ih =>
    have he : e ≠ SDL_Event.SDL_QUIT := fun h => hbefore (by simp [h])
    have hrest : SDL_Event.SDL_QUIT ∉ before := fun h => hbefore (by simp [h])
    simp only [List.cons_append, HandleEvents, if_neg he]
    exact ih _ hrest

/-- One outer iteration of `Run` up to the rendering, in terms of the number
of whole steps held by the accumulator. -/
theorem Run_iteration_body_eq (inp : Run_inputs) (s : Game × Run_locals) :
    Run_iteration_body inp s =
      (Tick^[⌊(s.2.delta + Run_elapsed inp.now s.2.last_time inp.frequency) / ms⌋₊]
          (HandleEvents s.1 inp.events).1,
        { last_time := inp.now
          delta := s.2.delta + Run_elapsed inp.now s.2.last_time inp.frequency
            - (⌊(s.2.delta + Run_elapsed inp.now s.2.last_time inp.frequency) / ms⌋₊ : ℚ) * ms
          timer := s.2.timer
          frames := s.2.frames + 1
          ticks := s.2.ticks
            + (⌊(s.2.delta + Run_elapsed inp.now s.2.last_time inp.frequency) / ms⌋₊ : Int) }) := by
  unfold Run_iteration_body
  simp only [Run_drain_eq]

/-- The timer check at the end of an iteration does not change the game
state. -/
theorem Run_iteration_game (inp : Run_inputs) (s : Game × Run_locals) :
    (Run_iteration inp s).1 = (Run_iteration_body inp s).1 := by
  unfold Run_iteration
  simp only []
  split_ifs <;> rfl

/-! ## Line coefficients and the solved candidate point -/

/-- Claim C3. When the determinant `A1 * B2 - A2 * B1` of two segments is
exactly zero, `GetIntersectionPoint` returns the no-intersection value, both
coordinates equal to the largest `float`. -/
theorem parallel_yields_no_intersection (line_1 line_2 : Line)
    (h : det line_1 line_2 = 0) :
    GetIntersectionPoint line_1 line_2 = ⟨float_max, float_max⟩ :=
  GetIntersectionPoint_of_det_eq_zero line_1 line_2 h

/-- Witness for `parallel_yields_no_intersection`: the parallel segments
`(0,0)-(10,0)` and `(0,1)-(10,1)`, and the overlapping collinear segments
`(0,0)-(10,0)` and `(5,0)-(15,0)`, have determinant zero and yield the
no-intersection value. -/
theorem parallel_yields_no_intersection_witness :
    (det ⟨⟨0, 0⟩, ⟨10, 0⟩⟩ ⟨⟨0, 1⟩, ⟨10, 1⟩⟩ = 0
        ∧ GetIntersectionPoint ⟨⟨0, 0⟩, ⟨10, 0⟩⟩ ⟨⟨0, 1⟩, ⟨10, 1⟩⟩ = ⟨float_max, float_max⟩)
      ∧ (det ⟨⟨0, 0⟩, ⟨10, 0⟩⟩ ⟨⟨5, 0⟩, ⟨15, 0⟩⟩ = 0
        ∧ GetIntersectionPoint ⟨⟨0, 0⟩, ⟨10, 0⟩⟩ ⟨⟨5, 0⟩, ⟨15, 0⟩⟩ = ⟨float_max, float_max⟩) :=
  ⟨⟨by norm_num [det, coefficients, LinearEquationCoefficients],
      parallel_yields_no_intersection ⟨⟨0, 0⟩, ⟨10, 0⟩⟩ ⟨⟨0, 1⟩, ⟨10, 1⟩⟩
        (by norm_num [det, coefficients, LinearEquationCoefficients])⟩,
    ⟨by norm_num [det, coefficients, LinearEquationCoefficients],
      parallel_yields_no_intersection ⟨⟨0, 0⟩, ⟨10, 0⟩⟩ ⟨⟨5, 0⟩, ⟨15, 0⟩⟩
        (by norm_num [det, coefficients, LinearEquationCoefficients])⟩⟩

/-! ## The containment test -/

/-- Claim C4, as amended. `GetIntersectionPoint` returns the candidate point
`(x, y)` when the determinant is nonzero and all four containment conditions
hold, and the no-intersection value in every other case; and when the
determinant is nonzero and the candidate is not itself the no-intersection
value, the returned value equals the candidate if and only if the four
conditions hold. -/
theorem GetIntersectionPoint_candidate_or_none (line_1 line_2 : Line) :
    GetIntersectionPoint line_1 line_2 =
        (if det line_1 line_2 ≠ 0
            ∧ on_range line_1.start_point.x line_1.end_point.x (candidate_x line_1 line_2) = true
            ∧ on_range line_1.start_point.y line_1.end_point.y (candidate_y line_1 line_2) = true
            ∧ on_range line_2.start_point.x line_2.end_point.x (candidate_x line_1 line_2) = true
            ∧ on_range line_2.start_point.y line_2.end_point.y (candidate_y line_1 line_2) = true
          then ⟨candidate_x line_1 line_2, candidate_y line_1 line_2⟩
          else ⟨float_max, float_max⟩)
      ∧ (det line_1 line_2 ≠ 0 →
          (⟨candidate_x line_1 line_2, candidate_y line_1 line_2⟩ : SDL_FPoint)
            ≠ ⟨float_max, float_max⟩ →
          (GetIntersectionPoint line_1 line_2
              = ⟨candidate_x line_1 line_2, candidate_y line_1 line_2⟩
            ↔ on_range line_1.start_point.x line_1.end_point.x (candidate_x line_1 line_2) = true
              ∧ on_range line_1.start_point.y line_1.end_point.y (candidate_y line_1 line_2) = true
              ∧ on_range line_2.start_point.x line_2.end_point.x (candidate_x line_1 line_2) = true
              ∧ on_range line_2.start_point.y line_2.end_point.y (candidate_y line_1 line_2) = true)) := by
  have hmain : GetIntersectionPoint line_1 line_2 =
      (if det line_1 line_2 ≠ 0
          ∧ on_range line_1.start_point.x line_1.end_point.x (candidate_x line_1 line_2) = true
          ∧ on_range line_1.start_point.y line_1.end_point.y (candidate_y line_1 line_2) = true
          ∧ on_range line_2.start_point.x line_2.end_point.x (candidate_x line_1 line_2) = true
          ∧ on_range line_2.start_point.y line_2.end_point.y (candidate_y line_1 line_2) = true
        then ⟨candidate_x line_1 line_2, candidate_y line_1 line_2⟩
        else ⟨float_max, float_max⟩) := by
    rw [GetIntersectionPoint_eq]
    by_cases hdet : det line_1 line_2 = 0
    · simp [hdet, no_intersection]
    · simp only [hdet, if_false, ne_eq, not_false_eq_true, true_and, on_both_segments,
        Bool.and_eq_true, and_assoc, no_intersection]
  refine ⟨hmain, ?_⟩
  intro hdet hne
  rw [hmain]
  constructor
  · intro h
    by_contra hcon
    rw [if_neg (fun hc => hcon hc.2)] at h
    exact hne h.symm
  · intro h
    rw [if_pos ⟨hdet, h⟩]

/-- Witness for `GetIntersectionPoint_candidate_or_none`: for the segments
`(0,0)-(10,10)` and `(10,0)-(0,10)` the determinant is nonzero, the candidate
is not the no-intersection value, and the candidate is returned exactly
because the four conditions hold. -/
theorem GetIntersectionPoint_candidate_or_none_witness :
    det ⟨⟨0, 0⟩, ⟨10, 10⟩⟩ ⟨⟨10, 0⟩, ⟨0, 10⟩⟩ ≠ 0
      ∧ (GetIntersectionPoint ⟨⟨0, 0⟩, ⟨10, 10⟩⟩ ⟨⟨10, 0⟩, ⟨0, 10⟩⟩
            = ⟨candidate_x ⟨⟨0, 0⟩, ⟨10, 10⟩⟩ ⟨⟨10, 0⟩, ⟨0, 10⟩⟩,
                candidate_y ⟨⟨0, 0⟩, ⟨10, 10⟩⟩ ⟨⟨10, 0⟩, ⟨0, 10⟩⟩⟩
          ↔ on_range 0 10 (candidate_x ⟨⟨0, 0⟩, ⟨10, 10⟩⟩ ⟨⟨10, 0⟩, ⟨0, 10⟩⟩) = true
            ∧ on_range 0 10 (candidate_y ⟨⟨0, 0⟩, ⟨10, 10⟩⟩ ⟨⟨10, 0⟩, ⟨0, 10⟩⟩) = true
            ∧ on_range 10 0 (candidate_x ⟨⟨0, 0⟩, ⟨10, 10⟩⟩ ⟨⟨10, 0⟩, ⟨0, 10⟩⟩) = true
            ∧ on_range 0 10 (candidate_y ⟨⟨0, 0⟩, ⟨10, 10⟩⟩ ⟨⟨10, 0⟩, ⟨0, 10⟩⟩) = true) :=
  ⟨by norm_num [det, coefficients, LinearEquationCoefficients],
    (GetIntersectionPoint_candidate_or_none ⟨⟨0, 0⟩, ⟨10, 10⟩⟩ ⟨⟨10, 0⟩, ⟨0, 10⟩⟩).2
      (by norm_num [det, coefficients, LinearEquationCoefficients])
      (by norm_num [candidate_x, candidate_y, det, coefficients, LinearEquationCoefficients,
        float_max])⟩

/-- Counterexample to claim C4 as stated. For the segments `(0,0)-(1,1)` and
`(0,max)-(1,max)` the determinant is `-1`, the candidate is `(max, max)` and
the containment condition of the first segment on the x axis fails; the
function returns the no-intersection value, which here is the candidate, so
the returned value equals the candidate although the conditions do not all
hold. -/
theorem GetIntersectionPoint_returns_candidate_outside :
    ¬ (GetIntersectionPoint ⟨⟨0, 0⟩, ⟨1, 1⟩⟩ ⟨⟨0, float_max⟩, ⟨1, float_max⟩⟩
          = ⟨candidate_x ⟨⟨0, 0⟩, ⟨1, 1⟩⟩ ⟨⟨0, float_max⟩, ⟨1, float_max⟩⟩,
              candidate_y ⟨⟨0, 0⟩, ⟨1, 1⟩⟩ ⟨⟨0, float_max⟩, ⟨1, float_max⟩⟩⟩
        ↔ det ⟨⟨0, 0⟩, ⟨1, 1⟩⟩ ⟨⟨0, float_max⟩, ⟨1, float_max⟩⟩ ≠ 0
          ∧ on_range 0 1 (candidate_x ⟨⟨0, 0⟩, ⟨1, 1⟩⟩ ⟨⟨0, float_max⟩, ⟨1, float_max⟩⟩) = true
          ∧ on_range 0 1 (candidate_y ⟨⟨0, 0⟩, ⟨1, 1⟩⟩ ⟨⟨0, float_max⟩, ⟨1, float_max⟩⟩) = true
          ∧ on_range 0 1 (candidate_x ⟨⟨0, 0⟩, ⟨1, 1⟩⟩ ⟨⟨0, float_max⟩, ⟨1, float_max⟩⟩) = true
          ∧ on_range float_max float_max
              (candidate_y ⟨⟨0, 0⟩, ⟨1, 1⟩⟩ ⟨⟨0, float_max⟩, ⟨1, float_max⟩⟩) = true) := by
  have hx : candidate_x ⟨⟨0, 0⟩, ⟨1, 1⟩⟩ ⟨⟨0, float_max⟩, ⟨1, float_max⟩⟩ = float_max := by
    norm_num [candidate_x, det, coefficients, LinearEquationCoefficients]
  have hy : candidate_y ⟨⟨0, 0⟩, ⟨1, 1⟩⟩ ⟨⟨0, float_max⟩, ⟨1, float_max⟩⟩ = float_max := by
    norm_num [candidate_y, det, coefficients, LinearEquationCoefficients]
  have hret : GetIntersectionPoint ⟨⟨0, 0⟩, ⟨1, 1⟩⟩ ⟨⟨0, float_max⟩, ⟨1, float_max⟩⟩
      = ⟨float_max, float_max⟩ := by
    norm_num [GetIntersectionPoint, LinearEquationCoefficients, FloatingPointLessThan,
      FloatingPointSame, std_min, std_max, float_epsilon, float_max]
  have hout : on_range 0 1 float_max = false := by
    norm_num [on_range, FloatingPointLessThan, FloatingPointSame, std_min, std_max,
      float_epsilon, float_max]
  rw [hx, hy, hret, hout]
  simp

/-- Claim C5, evaluated at a failing input. The segment from
`(2 - 2^-22, 0)` to `(2, 0)` has x-coordinates `p = 8388607/4194304` and
`q = 2`. Its own start coordinate `p` fails the containment test on the x
axis: `p` is neither tolerantly less than `q` (the difference `2^-22` is not
greater than `max(|p|,|q|) * epsilon = 2^-22`) nor tolerantly the same as `q`
(the difference exceeds `min(|p|,|q|) * epsilon`). Consequently the segment
`(p,-1)-(p,1)`, which touches the first segment exactly at its start point
`(p, 0)`, has candidate `(p, 0)` and yet yields the no-intersection value. -/
theorem endpoint_fails_containment :
    on_range (8388607 / 4194304) 2 (8388607 / 4194304) = false
      ∧ FloatingPointLessThan (8388607 / 4194304) 2 = false
      ∧ FloatingPointSame (8388607 / 4194304) 2 = false
      ∧ candidate_x ⟨⟨8388607 / 4194304, 0⟩, ⟨2, 0⟩⟩
          ⟨⟨8388607 / 4194304, -1⟩, ⟨8388607 / 4194304, 1⟩⟩ = 8388607 / 4194304
      ∧ candidate_y ⟨⟨8388607 / 4194304, 0⟩, ⟨2, 0⟩⟩
          ⟨⟨8388607 / 4194304, -1⟩, ⟨8388607 / 4194304, 1⟩⟩ = 0
      ∧ GetIntersectionPoint ⟨⟨8388607 / 4194304, 0⟩, ⟨2, 0⟩⟩
          ⟨⟨8388607 / 4194304, -1⟩, ⟨8388607 / 4194304, 1⟩⟩ = ⟨float_max, float_max⟩ := by
  refine ⟨?_, ?_, ?_, ?_, ?_, ?_⟩
  · norm_num [on_range, FloatingPointLessThan, FloatingPointSame, std_min, std_max,
      float_epsilon, abs_div]
  · norm_num [FloatingPointLessThan, float_epsilon, abs_div]
  · norm_num [FloatingPointSame, float_epsilon, abs_div]
  · norm_num [candidate_x, det, coefficients, LinearEquationCoefficients]
  · norm_num [candidate_y, det, coefficients, LinearEquationCoefficients]
  · norm_num [GetIntersectionPoint, LinearEquationCoefficients, FloatingPointLessThan,
      FloatingPointSame, std_min, std_max, float_epsilon, float_max, abs_div]

/-- Claim C6. Known values: the segments `(0,0)-(10,0)` and `(5,-5)-(5,5)`
intersect at `(5, 0)`, and the segments `(0,0)-(10,10)` and `(10,0)-(0,10)`
intersect at `(5, 5)`. -/
theorem GetIntersectionPoint_known_values :
    GetIntersectionPoint ⟨⟨0, 0⟩, ⟨10, 0⟩⟩ ⟨⟨5, -5⟩, ⟨5, 5⟩⟩ = ⟨5, 0⟩
      ∧ GetIntersectionPoint ⟨⟨0, 0⟩, ⟨10, 10⟩⟩ ⟨⟨10, 0⟩, ⟨0, 10⟩⟩ = ⟨5, 5⟩ := by
  constructor
  · norm_num [GetIntersectionPoint, LinearEquationCoefficients, FloatingPointLessThan,
      FloatingPointSame, std_min, std_max, float_epsilon, float_max]
  · norm_num [GetIntersectionPoint, LinearEquationCoefficients, FloatingPointLessThan,
      FloatingPointSame, std_min, std_max, float_epsilon, float_max]

/-! ## Totality and zero-length segments -/

/-- Claim C7. `GetIntersectionPoint` never divides by zero: with both
divisions checked the function still returns a value for every input, the
value of the unchecked function. And a zero-length segment (start equal to
end) has coefficients `A = B = 0`, `C = 0`, so that whenever either input
segment has zero length the result is the no-intersection value. -/
theorem GetIntersectionPoint_total (line_1 line_2 : Line) :
    GetIntersectionPointChecked line_1 line_2 = some (GetIntersectionPoint line_1 line_2)
      ∧ (line_1.start_point = line_1.end_point → coefficients line_1 = (0, 0, 0))
      ∧ (line_2.start_point = line_2.end_point → coefficients line_2 = (0, 0, 0))
      ∧ (line_1.start_point = line_1.end_point ∨ line_2.start_point = line_2.end_point →
          GetIntersectionPoint line_1 line_2 = ⟨float_max, float_max⟩) := by
  have hzero : ∀ l : Line, l.start_point = l.end_point → coefficients l = (0, 0, 0) := by
    intro l h
    simp [coefficients, LinearEquationCoefficients, h]
  refine ⟨?_, hzero line_1, hzero line_2, ?_⟩
  · have hchecked : GetIntersectionPointChecked line_1 line_2 =
        if det line_1 line_2 = 0 then some no_intersection
        else
          (checked_div ((coefficients line_2).2.1 * (coefficients line_1).2.2
              - (coefficients line_1).2.1 * (coefficients line_2).2.2)
            (det line_1 line_2)).bind fun x =>
          (checked_div ((coefficients line_1).1 * (coefficients line_2).2.2
              - (coefficients line_2).1 * (coefficients line_1).2.2)
            (det line_1 line_2)).bind fun y =>
          if on_both_segments line_1 line_2 x y = true then some ⟨x, y⟩
          else some no_intersection := rfl
    rw [hchecked, GetIntersectionPoint_eq]
    by_cases hdet : det line_1 line_2 = 0
    · simp [hdet]
    · simp only [hdet, if_false, checked_div, Option.some_bind]
      unfold candidate_x candidate_y
      split_ifs <;> rfl
  · intro h
    apply GetIntersectionPoint_of_det_eq_zero
    rcases h with h | h
    · simp [det, hzero _ h]
    · simp [det, hzero _ h]

/-- Witness for `GetIntersectionPoint_total`: the zero-length segment at
`(5, 0)` lies on the segment `(0,0)-(10,0)`, and the result is still the
no-intersection value, in either argument order. -/
theorem GetIntersectionPoint_total_witness :
    GetIntersectionPoint ⟨⟨5, 0⟩, ⟨5, 0⟩⟩ ⟨⟨0, 0⟩, ⟨10, 0⟩⟩ = ⟨float_max, float_max⟩
      ∧ GetIntersectionPoint ⟨⟨0, 0⟩, ⟨10, 0⟩⟩ ⟨⟨5, 0⟩, ⟨5, 0⟩⟩ = ⟨float_max, float_max⟩
      ∧ coefficients ⟨⟨5, 0⟩, ⟨5, 0⟩⟩ = (0, 0, 0)
      ∧ coefficients ⟨⟨-3, 7⟩, ⟨-3, 7⟩⟩ = (0, 0, 0) :=
  ⟨(GetIntersectionPoint_total ⟨⟨5, 0⟩, ⟨5, 0⟩⟩ ⟨⟨0, 0⟩, ⟨10, 0⟩⟩).2.2.2 (Or.inl rfl),
    (GetIntersectionPoint_total ⟨⟨0, 0⟩, ⟨10, 0⟩⟩ ⟨⟨5, 0⟩, ⟨5, 0⟩⟩).2.2.2 (Or.inr rfl),
    (GetIntersectionPoint_total ⟨⟨5, 0⟩, ⟨5, 0⟩⟩ ⟨⟨0, 0⟩, ⟨10, 0⟩⟩).2.1 rfl,
    (GetIntersectionPoint_total ⟨⟨0, 0⟩, ⟨10, 0⟩⟩ ⟨⟨-3, 7⟩, ⟨-3, 7⟩⟩).2.2.1 rfl⟩

/-! ## The simulation tick -/

/-- Claim C8. For every state and every entity `i`, one `Tick` changes that
entity's position from `(x, y)` to exactly `(x + vx, y + vy)`; the new box of
entity `i` is determined by the old box and velocity of entity `i` alone
(`Tick` takes no elapsed time, and no other entity enters the formula). -/
theorem Tick_moves_by_velocity (g : Game) (i : Fin 4) :
    ((Tick g).player_boxes_ i).box_.x = (g.player_boxes_ i).box_.x + (g.player_boxes_ i).vx_
      ∧ ((Tick g).player_boxes_ i).box_.y
          = (g.player_boxes_ i).box_.y + (g.player_boxes_ i).vy_
      ∧ (Tick g).player_boxes_ i =
          { g.player_boxes_ i with
            box_ := { (g.player_boxes_ i).box_ with
                      x := (g.player_boxes_ i).box_.x + (g.player_boxes_ i).vx_
                      y := (g.player_boxes_ i).box_.y + (g.player_boxes_ i).vy_ } } := by
  rw [Tick_player_boxes]
  exact ⟨rfl, rfl, rfl⟩

/-- Claim C10. After every `Tick` the stored intersection equals
`GetIntersectionPoint` of the segment joining the centres `(x + w/2, y + h/2)`
of entities 0 and 1 and the segment joining the centres of entities 2 and 3,
taken at the positions after this tick's movement, that is at
`(x + vx + w/2, y + vy + h/2)` in terms of the state before the tick; and
there is a state in which this differs from the intersection of the segments
at the positions before the movement. -/
theorem Tick_stores_intersection_after_move :
    (∀ g : Game,
        (Tick g).lines_intersection_
            = GetIntersectionPoint
                ⟨box_centre ((Tick g).player_boxes_ 0), box_centre ((Tick g).player_boxes_ 1)⟩
                ⟨box_centre ((Tick g).player_boxes_ 2), box_centre ((Tick g).player_boxes_ 3)⟩
          ∧ ∀ i : Fin 4, box_centre ((Tick g).player_boxes_ i) =
              ⟨((g.player_boxes_ i).box_.x + (g.player_boxes_ i).vx_
                  + Int.tdiv (g.player_boxes_ i).box_.w 2 : Int),
                ((g.player_boxes_ i).box_.y + (g.player_boxes_ i).vy_
                  + Int.tdiv (g.player_boxes_ i).box_.h 2 : Int)⟩)
      ∧ ∃ g : Game,
          (Tick g).lines_intersection_
            ≠ GetIntersectionPoint
                ⟨box_centre (g.player_boxes_ 0), box_centre (g.player_boxes_ 1)⟩
                ⟨box_centre (g.player_boxes_ 2), box_centre (g.player_boxes_ 3)⟩ := by
  constructor
  · intro g
    refine ⟨Tick_lines_intersection g, ?_⟩
    intro i
    rw [Tick_player_boxes]
    rfl
  · refine ⟨{ Game.Game true with
        player_boxes_ := fun i =>
          match i with
          | 0 => ⟨⟨-5, -5, 10, 10⟩, ⟨0, 0, 0, 0⟩, 0, 0⟩
          | 1 => ⟨⟨5, -5, 10, 10⟩, ⟨0, 0, 0, 0⟩, 0, 0⟩
          | 2 => ⟨⟨0, -10, 10, 10⟩, ⟨0, 0, 0, 0⟩, 0, 0⟩
          | 3 => ⟨⟨0, -6, 10, 10⟩, ⟨0, 0, 0, 0⟩, 0, 5⟩ }, ?_⟩
    have hhalf : Int.tdiv 10 2 = 5 := by decide
    rw [Tick_lines_intersection, Tick_player_boxes]
    norm_num [centres_intersection, box_centre, moved, GetIntersectionPoint,
      LinearEquationCoefficients, FloatingPointLessThan, FloatingPointSame, std_min, std_max,
      float_epsilon, float_max, hhalf]

/-- Claim C9, as amended. In a state in which all four entities have velocity
`(0, 0)`, any number of ticks leaves every entity unchanged, the stored
intersection is the same after `n + 1` ticks as after one tick, and it is the
same after `n` ticks as before them when the stored intersection already is
the one of the current segments. -/
theorem Tick_zero_velocity (g : Game)
    (h : ∀ i : Fin 4, (g.player_boxes_ i).vx_ = 0 ∧ (g.player_boxes_ i).vy_ = 0) (n : Nat) :
    (Tick^[n] g).player_boxes_ = g.player_boxes_
      ∧ (Tick^[n + 1] g).lines_intersection_ = (Tick g).lines_intersection_
      ∧ (g.lines_intersection_ = centres_intersection g.player_boxes_ →
          (Tick^[n] g).lines_intersection_ = g.lines_intersection_) := by
  have hstill : ∀ s : Game,
      (∀ i : Fin 4, (s.player_boxes_ i).vx_ = 0 ∧ (s.player_boxes_ i).vy_ = 0) →
      (Tick s).player_boxes_ = s.player_boxes_ := by
    intro s hs
    rw [Tick_player_boxes]
    funext i
    have hi := hs i
    rcases hbox : s.player_boxes_ i with ⟨⟨x, y, w, hh⟩, c, vx, vy⟩
    rw [hbox] at hi
    simp only at hi
    simp [moved, hi.1, hi.2]
  have hboxes : ∀ k : Nat, (Tick^[k] g).player_boxes_ = g.player_boxes_ := by
    intro k
    induction k with
    | zero => rfl
    | succ k ih =>
      rw [Function.iterate_succ_apply', hstill _ (by rw [ih]; exact h), ih]
  have hstored : ∀ k : Nat,
      (Tick^[k + 1] g).lines_intersection_ = centres_intersection g.player_boxes_ := by
    intro k
    rw [Function.iterate_succ_apply', Tick_lines_intersection,
      hstill _ (by rw [hboxes k]; exact h), hboxes k]
  refine ⟨hboxes n, ?_, ?_⟩
  · rw [hstored n, Tick_lines_intersection, hstill g h]
  · intro hcur
    cases n with
    | zero => rfl
    | succ k => rw [hstored k, hcur]

/-- Witness for `Tick_zero_velocity`: the state reached by one tick from the
state built by the constructor has all velocities zero and stores the
intersection of its current segments; two further ticks leave its boxes and
its stored intersection unchanged. -/
theorem Tick_zero_velocity_witness :
    (∀ i : Fin 4, ((Tick (Game.Game true)).player_boxes_ i).vx_ = 0
        ∧ ((Tick (Game.Game true)).player_boxes_ i).vy_ = 0)
      ∧ (Tick^[2] (Tick (Game.Game true))).player_boxes_
          = (Tick (Game.Game true)).player_boxes_
      ∧ (Tick^[2 + 1] (Tick (Game.Game true))).lines_intersection_
          = (Tick (Tick (Game.Game true))).lines_intersection_
      ∧ (Tick^[2] (Tick (Game.Game true))).lines_intersection_
          = (Tick (Game.Game true)).lines_intersection_ :=
  have hzero : ∀ i : Fin 4, ((Tick (Game.Game true)).player_boxes_ i).vx_ = 0
      ∧ ((Tick (Game.Game true)).player_boxes_ i).vy_ = 0 := by
    intro i
    rw [Tick_player_boxes]
    fin_cases i <;> exact ⟨rfl, rfl⟩
  ⟨hzero, (Tick_zero_velocity (Tick (Game.Game true)) hzero 2).1,
    (Tick_zero_velocity (Tick (Game.Game true)) hzero 2).2.1,
    (Tick_zero_velocity (Tick (Game.Game true)) hzero 2).2.2
      (Tick_lines_intersection (Game.Game true))⟩

/-- Counterexample to claim C9 as stated. In the state built by the
constructor all four entities have velocity `(0, 0)` and the stored
intersection is `(-1, -1)`; one `Tick` replaces it by the no-intersection
value, so the stored intersection does change. -/
theorem Tick_changes_initial_intersection :
    (∀ i : Fin 4, ((Game.Game true).player_boxes_ i).vx_ = 0
        ∧ ((Game.Game true).player_boxes_ i).vy_ = 0)
      ∧ (Game.Game true).lines_intersection_ = ⟨-1, -1⟩
      ∧ (Tick (Game.Game true)).lines_intersection_ = ⟨float_max, float_max⟩
      ∧ (Tick (Game.Game true)).lines_intersection_
          ≠ (Game.Game true).lines_intersection_ := by
  have hzero : ∀ i : Fin 4, ((Game.Game true).player_boxes_ i).vx_ = 0
      ∧ ((Game.Game true).player_boxes_ i).vy_ = 0 := by
    intro i
    fin_cases i <;> exact ⟨rfl, rfl⟩
  have hbefore : (Game.Game true).lines_intersection_ = ⟨-1, -1⟩ := rfl
  have hafter : (Tick (Game.Game true)).lines_intersection_ = ⟨float_max, float_max⟩ := by
    rw [Tick_lines_intersection, Tick_player_boxes]
    apply GetIntersectionPoint_of_det_eq_zero
    norm_num [det, coefficients, LinearEquationCoefficients, centres_intersection, box_centre,
      moved, Game.Game, screen_width, screen_height]
  refine ⟨hzero, hbefore, hafter, ?_⟩
  rw [hafter, hbefore]
  norm_num [float_max]

/-! ## The tolerant comparators -/

/-- Claim C16, as amended. For all `a` and `b`, `FloatingPointSame(a, b)`
holds iff `|a - b| <= min(|a|, |b|) * epsilon` (scaled by the smaller
magnitude), and `FloatingPointGreaterThan(a, b)` holds iff
`a - b > max(|a|, |b|) * epsilon` (scaled by the larger magnitude). -/
theorem comparator_scaling (a b : ℚ) :
    (FloatingPointSame a b = true ↔ |a - b| ≤ min |a| |b| * float_epsilon)
      ∧ (FloatingPointGreaterThan a b = true ↔ a - b > max |a| |b| * float_epsilon) :=
  ⟨FloatingPointSame_iff a b, FloatingPointGreaterThan_iff a b⟩

/-- Counterexample to claim C16 as stated. For `a = 2` and
`b = 2 - 2^-22 = 8388607/4194304` the difference `a - b = 2^-22` exceeds
`min(|a|, |b|) * epsilon` and yet `FloatingPointGreaterThan(a, b)` is false,
because the difference does not exceed `max(|a|, |b|) * epsilon = 2^-22`. -/
theorem FloatingPointGreaterThan_not_min_scaled :
    ¬ (FloatingPointGreaterThan 2 (8388607 / 4194304) = true
        ↔ (2 : ℚ) - 8388607 / 4194304 > min |(2 : ℚ)| |(8388607 / 4194304 : ℚ)| * float_epsilon) := by
  have hcode : FloatingPointGreaterThan 2 (8388607 / 4194304) = false := by
    norm_num [FloatingPointGreaterThan, float_epsilon, abs_div]
  have hmin : (2 : ℚ) - 8388607 / 4194304
      > min |(2 : ℚ)| |(8388607 / 4194304 : ℚ)| * float_epsilon := by
    norm_num [float_epsilon, abs_div]
  rw [hcode]
  intro hiff
  exact Bool.false_ne_true (hiff.mpr hmin)

/-- Claim C17. For all `a` and `b`, at most one of `FloatingPointSame(a, b)`,
`FloatingPointLessThan(a, b)`, `FloatingPointGreaterThan(a, b)` holds, and
`FloatingPointLessThan(a, b)` holds exactly when
`FloatingPointGreaterThan(b, a)` holds. The three are not exhaustive: for
`a = 2 - 2^-22` and `b = 2` none of them holds. -/
theorem comparators_mutually_exclusive :
    (∀ a b : ℚ,
        ¬ (FloatingPointSame a b = true ∧ FloatingPointLessThan a b = true)
          ∧ ¬ (FloatingPointSame a b = true ∧ FloatingPointGreaterThan a b = true)
          ∧ ¬ (FloatingPointLessThan a b = true ∧ FloatingPointGreaterThan a b = true)
          ∧ (FloatingPointLessThan a b = true ↔ FloatingPointGreaterThan b a = true))
      ∧ ∃ a b : ℚ, FloatingPointSame a b = false ∧ FloatingPointLessThan a b = false
          ∧ FloatingPointGreaterThan a b = false := by
  constructor
  · intro a b
    rw [FloatingPointSame_iff, FloatingPointLessThan_iff, FloatingPointGreaterThan_iff,
      FloatingPointGreaterThan_iff, max_comm |b| |a|, sub_eq_add_neg b a]
    have hmin : min |a| |b| * float_epsilon ≤ max |a| |b| * float_epsilon :=
      mul_le_mul_of_nonneg_right min_le_max float_epsilon_pos.le
    have hmax : 0 ≤ max |a| |b| * float_epsilon :=
      mul_nonneg (le_max_of_le_left (abs_nonneg a)) float_epsilon_pos.le
    have hle : a - b ≤ |a - b| := le_abs_self (a - b)
    have hge : b - a ≤ |a - b| := by
      rw [abs_sub_comm]
      exact le_abs_self (b - a)
    refine ⟨?_, ?_, ?_, ?_⟩
    · rintro ⟨hs, hl⟩
      linarith
    · rintro ⟨hs, hg⟩
      linarith
    · rintro ⟨hl, hg⟩
      linarith
    · rw [← sub_eq_add_neg]
  · refine ⟨8388607 / 4194304, 2, ?_, ?_, ?_⟩
    · norm_num [FloatingPointSame, float_epsilon, abs_div]
    · norm_num [FloatingPointLessThan, float_epsilon, abs_div]
    · norm_num [FloatingPointGreaterThan, float_epsilon, abs_div]


/-! ## Symmetries of the intersection solve -/

/-- Claim C18. In exact arithmetic `GetIntersectionPoint` is symmetric in its
two arguments: the determinant and both numerators change sign together and
the four containment conditions are the same set. -/
theorem GetIntersectionPoint_symmetric (line_1 line_2 : Line) :
    GetIntersectionPoint line_1 line_2 = GetIntersectionPoint line_2 line_1
      ∧ det line_2 line_1 = -det line_1 line_2
      ∧ candidate_x line_2 line_1 = candidate_x line_1 line_2
      ∧ candidate_y line_2 line_1 = candidate_y line_1 line_2 := by
  have hdet : det line_2 line_1 = -det line_1 line_2 := by
    unfold det
    ring
  have hx : candidate_x line_2 line_1 = candidate_x line_1 line_2 := by
    unfold candidate_x
    exact div_of_opposite _ _ _ _ (by ring) hdet
  have hy : candidate_y line_2 line_1 = candidate_y line_1 line_2 := by
    unfold candidate_y
    exact div_of_opposite _ _ _ _ (by ring) hdet
  refine ⟨(GetIntersectionPoint_congr line_1 line_2 line_2 line_1 hdet hx hy ?_).symm,
    hdet, hx, hy⟩
  intro x y
  unfold on_both_segments
  cases on_range line_1.start_point.x line_1.end_point.x x <;>
    cases on_range line_1.start_point.y line_1.end_point.y y <;>
    cases on_range line_2.start_point.x line_2.end_point.x x <;>
    cases on_range line_2.start_point.y line_2.end_point.y y <;> rfl

/-- Claim C11. For every state, a key-up event of a movement key sets the
corresponding velocity component (`vy` for W, S, Up, Down; `vx` for A, D,
Left, Right) to `0` for both entities of that key's pair, whatever the
modifier flag is, and leaves the other component of every entity and both
components of the other pair unchanged. -/
theorem key_up_zeroes_pair (g : Game) (k : SDL_Keycode) (hk : movement_key k = true) :
    (key_vertical k = true →
        ((HandleEvents g [SDL_Event.SDL_KEYUP k]).1.player_boxes_ (pair_first k)).vy_ = 0
        ∧ ((HandleEvents g [SDL_Event.SDL_KEYUP k]).1.player_boxes_ (pair_second k)).vy_ = 0
        ∧ (∀ i : Fin 4, ((HandleEvents g [SDL_Event.SDL_KEYUP k]).1.player_boxes_ i).vx_
            = (g.player_boxes_ i).vx_)
        ∧ (∀ i : Fin 4, i ≠ pair_first k → i ≠ pair_second k →
            ((HandleEvents g [SDL_Event.SDL_KEYUP k]).1.player_boxes_ i).vy_
              = (g.player_boxes_ i).vy_))
      ∧ (key_vertical k = false →
        ((HandleEvents g [SDL_Event.SDL_KEYUP k]).1.player_boxes_ (pair_first k)).vx_ = 0
        ∧ ((HandleEvents g [SDL_Event.SDL_KEYUP k]).1.player_boxes_ (pair_second k)).vx_ = 0
        ∧ (∀ i : Fin 4, ((HandleEvents g [SDL_Event.SDL_KEYUP k]).1.player_boxes_ i).vy_
            = (g.player_boxes_ i).vy_)
        ∧ (∀ i : Fin 4, i ≠ pair_first k → i ≠ pair_second k →
            ((HandleEvents g [SDL_Event.SDL_KEYUP k]).1.player_boxes_ i).vx_
              = (g.player_boxes_ i).vx_)) := by
  constructor
  · intro hv
    refine ⟨?_, ?_, ?_, ?_⟩
    · rw [key_up_boxes g k hk]
      simp [hv]
    · rw [key_up_boxes g k hk]
      simp [hv]
    · intro i
      rw [key_up_boxes g k hk]
      split_ifs <;> rfl
    · intro i h1 h2
      rw [key_up_boxes g k hk]
      simp [h1, h2]
  · intro hv
    refine ⟨?_, ?_, ?_, ?_⟩
    · rw [key_up_boxes g k hk]
      simp [hv]
    · rw [key_up_boxes g k hk]
      simp [hv]
    · intro i
      rw [key_up_boxes g k hk]
      split_ifs <;> first | rfl | simp_all
    · intro i h1 h2
      rw [key_up_boxes g k hk]
      simp [h1, h2]

/-- Witness for `key_up_zeroes_pair`: in a state with the modifier held and
every entity moving at `(3, 4)`, releasing W zeroes `vy` of entities 0 and 1
and keeps every `vx` and the `vy` of entities 2 and 3; releasing Left zeroes
`vx` of entities 2 and 3. -/
theorem key_up_zeroes_pair_witness :
    (movement_key SDL_Keycode.SDLK_w = true ∧ key_vertical SDL_Keycode.SDLK_w = true
        ∧ ((HandleEvents moving_example
            [SDL_Event.SDL_KEYUP SDL_Keycode.SDLK_w]).1.player_boxes_ 0).vy_ = 0
        ∧ ((HandleEvents moving_example
            [SDL_Event.SDL_KEYUP SDL_Keycode.SDLK_w]).1.player_boxes_ 1).vy_ = 0
        ∧ ((HandleEvents moving_example
            [SDL_Event.SDL_KEYUP SDL_Keycode.SDLK_w]).1.player_boxes_ 1).vx_ = 3
        ∧ ((HandleEvents moving_example
            [SDL_Event.SDL_KEYUP SDL_Keycode.SDLK_w]).1.player_boxes_ 2).vy_ = 4)
      ∧ (movement_key SDL_Keycode.SDLK_LEFT = true ∧ key_vertical SDL_Keycode.SDLK_LEFT = false
        ∧ ((HandleEvents moving_example
            [SDL_Event.SDL_KEYUP SDL_Keycode.SDLK_LEFT]).1.player_boxes_ 2).vx_ = 0
        ∧ ((HandleEvents moving_example
            [SDL_Event.SDL_KEYUP SDL_Keycode.SDLK_LEFT]).1.player_boxes_ 3).vx_ = 0) :=
  ⟨⟨rfl, rfl,
      ((key_up_zeroes_pair moving_example SDL_Keycode.SDLK_w rfl).1 rfl).1,
      ((key_up_zeroes_pair moving_example SDL_Keycode.SDLK_w rfl).1 rfl).2.1,
      ((key_up_zeroes_pair moving_example SDL_Keycode.SDLK_w rfl).1 rfl).2.2.1 1,
      ((key_up_zeroes_pair moving_example SDL_Keycode.SDLK_w rfl).1 rfl).2.2.2 2
        (by decide) (by decide)⟩,
    ⟨rfl, rfl,
      ((key_up_zeroes_pair moving_example SDL_Keycode.SDLK_LEFT rfl).2 rfl).1,
      ((key_up_zeroes_pair moving_example SDL_Keycode.SDLK_LEFT rfl).2 rfl).2.1⟩⟩

/-- Claim C12. For every state, a key-down event of a movement key sets one
velocity component of one entity: the entity is the first of the key's pair
when the modifier flag is clear and the second when it is set, the component
is `vy` for W, S, Up, Down and `vx` for A, D, Left, Right, and the value is
`-5` for W, Up, A, Left and `+5` for S, Down, D, Right; every other velocity
component, every box and colour, and the modifier flag are unchanged. -/
theorem key_down_sets_one_component (g : Game) (k : SDL_Keycode)
    (hk : movement_key k = true) :
    (key_vertical k = true →
        ((HandleEvents g [SDL_Event.SDL_KEYDOWN k]).1.player_boxes_
            (if g.shift_pressed_ = true then pair_second k else pair_first k)).vy_
          = key_velocity k
        ∧ (∀ i : Fin 4, ((HandleEvents g [SDL_Event.SDL_KEYDOWN k]).1.player_boxes_ i).vx_
            = (g.player_boxes_ i).vx_)
        ∧ (∀ i : Fin 4, i ≠ (if g.shift_pressed_ = true then pair_second k else pair_first k) →
            ((HandleEvents g [SDL_Event.SDL_KEYDOWN k]).1.player_boxes_ i).vy_
              = (g.player_boxes_ i).vy_))
      ∧ (key_vertical k = false →
        ((HandleEvents g [SDL_Event.SDL_KEYDOWN k]).1.player_boxes_
            (if g.shift_pressed_ = true then pair_second k else pair_first k)).vx_
          = key_velocity k
        ∧ (∀ i : Fin 4, ((HandleEvents g [SDL_Event.SDL_KEYDOWN k]).1.player_boxes_ i).vy_
            = (g.player_boxes_ i).vy_)
        ∧ (∀ i : Fin 4, i ≠ (if g.shift_pressed_ = true then pair_second k else pair_first k) →
            ((HandleEvents g [SDL_Event.SDL_KEYDOWN k]).1.player_boxes_ i).vx_
              = (g.player_boxes_ i).vx_))
      ∧ (∀ i : Fin 4,
          ((HandleEvents g [SDL_Event.SDL_KEYDOWN k]).1.player_boxes_ i).box_
              = (g.player_boxes_ i).box_
            ∧ ((HandleEvents g [SDL_Event.SDL_KEYDOWN k]).1.player_boxes_ i).color_
              = (g.player_boxes_ i).color_)
      ∧ (HandleEvents g [SDL_Event.SDL_KEYDOWN k]).1.shift_pressed_ = g.shift_pressed_ := by
  refine ⟨?_, ?_, ?_, (key_flags g k hk).1⟩
  · intro hv
    refine ⟨?_, ?_, ?_⟩
    · rw [key_down_boxes g k hk]
      simp [hv]
    · intro i
      rw [key_down_boxes g k hk]
      split_ifs <;> rfl
    · intro i hi
      rw [key_down_boxes g k hk]
      simp [hi]
  · intro hv
    refine ⟨?_, ?_, ?_⟩
    · rw [key_down_boxes g k hk]
      simp [hv]
    · intro i
      rw [key_down_boxes g k hk]
      split_ifs <;> first | rfl | simp_all
    · intro i hi
      rw [key_down_boxes g k hk]
      simp [hi]
  · intro i
    rw [key_down_boxes g k hk]
    split_ifs <;> exact ⟨rfl, rfl⟩

/-- Witness for `key_down_sets_one_component`: in a state with the modifier
held and every entity moving at `(3, 4)`, pressing W sets `vy` of entity 1 to
`-5` and keeps the `vy` of entity 0; pressing Right sets `vx` of entity 3 to
`5` and keeps the `vx` of entity 2. -/
theorem key_down_sets_one_component_witness :
    (movement_key SDL_Keycode.SDLK_w = true ∧ key_vertical SDL_Keycode.SDLK_w = true
        ∧ ((HandleEvents moving_example
            [SDL_Event.SDL_KEYDOWN SDL_Keycode.SDLK_w]).1.player_boxes_ 1).vy_ = -5
        ∧ ((HandleEvents moving_example
            [SDL_Event.SDL_KEYDOWN SDL_Keycode.SDLK_w]).1.player_boxes_ 0).vy_ = 4)
      ∧ (movement_key SDL_Keycode.SDLK_RIGHT = true
        ∧ key_vertical SDL_Keycode.SDLK_RIGHT = false
        ∧ ((HandleEvents moving_example
            [SDL_Event.SDL_KEYDOWN SDL_Keycode.SDLK_RIGHT]).1.player_boxes_ 3).vx_ = 5
        ∧ ((HandleEvents moving_example
            [SDL_Event.SDL_KEYDOWN SDL_Keycode.SDLK_RIGHT]).1.player_boxes_ 2).vx_ = 3) :=
  ⟨⟨rfl, rfl,
      ((key_down_sets_one_component moving_example SDL_Keycode.SDLK_w rfl).1 rfl).1,
      ((key_down_sets_one_component moving_example SDL_Keycode.SDLK_w rfl).1 rfl).2.2 0
        (by decide)⟩,
    ⟨rfl, rfl,
      ((key_down_sets_one_component moving_example SDL_Keycode.SDLK_RIGHT rfl).2.1 rfl).1,
      ((key_down_sets_one_component moving_example SDL_Keycode.SDLK_RIGHT rfl).2.1 rfl).2.2 2
        (by decide)⟩⟩

/-- Claim C13. `Tick` never changes any entity's velocity, size or colour,
nor the modifier flag: they are the same after any number of ticks. -/
theorem Tick_preserves_velocity (g : Game) (n : Nat) :
    (∀ i : Fin 4,
        ((Tick^[n] g).player_boxes_ i).vx_ = (g.player_boxes_ i).vx_
          ∧ ((Tick^[n] g).player_boxes_ i).vy_ = (g.player_boxes_ i).vy_
          ∧ ((Tick^[n] g).player_boxes_ i).box_.w = (g.player_boxes_ i).box_.w
          ∧ ((Tick^[n] g).player_boxes_ i).box_.h = (g.player_boxes_ i).box_.h
          ∧ ((Tick^[n] g).player_boxes_ i).color_ = (g.player_boxes_ i).color_)
      ∧ (Tick^[n] g).shift_pressed_ = g.shift_pressed_ := by
  induction n with
  | zero => exact ⟨fun i => ⟨rfl, rfl, rfl, rfl, rfl⟩, rfl⟩
  | succ n ih =>
    rw [Function.iterate_succ_apply']
    refine ⟨fun i => ?_, ?_⟩
    · rw [Tick_player_boxes]
      exact ih.1 i
    · rw [Tick_shift_pressed]
      exact ih.2


/-! ## The fixed-timestep loop -/

/-- Claim C14, as amended. In an outer iteration of `Run` whose event queue
holds a quit event, `HandleEvents` dispatches the events queued before the
quit event, clears `running_` and leaves the events queued after it
undispatched; the rest of the iteration still runs, draining the accumulator
with one `Tick` per whole step and rendering once; `running_` is still false
at the end of the iteration, so the loop runs no further iteration. -/
theorem quit_stops_loop_after_iteration (inp : Run_inputs) (s : Game × Run_locals)
    (before after : List SDL_Event)
    (hevents : inp.events = before ++ SDL_Event.SDL_QUIT :: after)
    (hbefore : SDL_Event.SDL_QUIT ∉ before) :
    HandleEvents s.1 inp.events
        = ({ (HandleEvents s.1 before).1 with running_ := false }, after)
      ∧ (Run_iteration_body inp s).1
        = Tick^[⌊(s.2.delta + Run_elapsed inp.now s.2.last_time inp.frequency) / ms⌋₊]
            { (HandleEvents s.1 before).1 with running_ := false }
      ∧ (Run_iteration_body inp s).2.ticks
        = s.2.ticks
          + (⌊(s.2.delta + Run_elapsed inp.now s.2.last_time inp.frequency) / ms⌋₊ : Int)
      ∧ (Run_iteration_body inp s).2.frames = s.2.frames + 1
      ∧ (Run_iteration inp s).1.running_ = false
      ∧ ∀ later : List Run_inputs, s.1.running_ = true →
          Run_loop (inp :: later) s = Run_iteration inp s := by
  have hquit := HandleEvents_quit s.1 before after hbefore
  rw [← hevents] at hquit
  have hstate : (Run_iteration_body inp s).1
      = Tick^[⌊(s.2.delta + Run_elapsed inp.now s.2.last_time inp.frequency) / ms⌋₊]
          { (HandleEvents s.1 before).1 with running_ := false } := by
    rw [Run_iteration_body_eq, hquit]
  have hstopped : (Run_iteration inp s).1.running_ = false := by
    rw [Run_iteration_game, hstate, Tick_iterate_running]
  refine ⟨hquit, hstate, ?_, ?_, hstopped, ?_⟩
  · rw [Run_iteration_body_eq]
  · rw [Run_iteration_body_eq]
  · intro later hrun
    cases later with
    | nil => simp [Run_loop, hrun]
    | cons next later => simp [Run_loop, hrun, hstopped]

/-- Witness for `quit_stops_loop_after_iteration`: an iteration whose queue
is key-down D, quit, key-down W. The key-down W is left in the queue,
`running_` is false afterwards, and a following iteration is not run. -/
theorem quit_stops_loop_after_iteration_witness :
    quit_example_inputs.events
        = [SDL_Event.SDL_KEYDOWN SDL_Keycode.SDLK_d] ++ SDL_Event.SDL_QUIT
            :: [SDL_Event.SDL_KEYDOWN SDL_Keycode.SDLK_w]
      ∧ SDL_Event.SDL_QUIT ∉ [SDL_Event.SDL_KEYDOWN SDL_Keycode.SDLK_d]
      ∧ HandleEvents quit_example_start.1 quit_example_inputs.events
        = ({ (HandleEvents quit_example_start.1
              [SDL_Event.SDL_KEYDOWN SDL_Keycode.SDLK_d]).1 with running_ := false },
            [SDL_Event.SDL_KEYDOWN SDL_Keycode.SDLK_w])
      ∧ (Run_iteration_body quit_example_inputs quit_example_start).2.frames
        = quit_example_start.2.frames + 1
      ∧ (Run_iteration quit_example_inputs quit_example_start).1.running_ = false
      ∧ Run_loop [quit_example_inputs, quit_example_inputs] quit_example_start
        = Run_iteration quit_example_inputs quit_example_start :=
  have hbefore : SDL_Event.SDL_QUIT ∉ [SDL_Event.SDL_KEYDOWN SDL_Keycode.SDLK_d] := by
    decide
  have h := quit_stops_loop_after_iteration quit_example_inputs quit_example_start
    [SDL_Event.SDL_KEYDOWN SDL_Keycode.SDLK_d] [SDL_Event.SDL_KEYDOWN SDL_Keycode.SDLK_w]
    rfl hbefore
  ⟨rfl, hbefore, h.1, h.2.2.2.1, h.2.2.2.2.1, h.2.2.2.2.2 [quit_example_inputs] rfl⟩

/-- Counterexample to claim C14 as stated. With an elapsed time of `1/20`
(three whole steps) and the queue key-down D, quit, key-down W, the iteration
that sees the quit event still runs `Tick` three times (entity 0 moves from
`x = 315` to `x = 330`) and renders once: the counters `ticks` and `frames`
both advance after the quit event instead of staying at their values `0`. -/
theorem quit_iteration_still_ticks_and_renders :
    SDL_Event.SDL_QUIT ∈ quit_example_inputs.events
      ∧ (Run_iteration quit_example_inputs quit_example_start).2.ticks = 3
      ∧ (Run_iteration quit_example_inputs quit_example_start).2.frames = 1
      ∧ ((Run_iteration quit_example_inputs quit_example_start).1.player_boxes_ 0).box_.x
        = 315 + 3 * 5
      ∧ ¬ ((Run_iteration quit_example_inputs quit_example_start).2.ticks
            = quit_example_start.2.ticks
          ∧ (Run_iteration quit_example_inputs quit_example_start).2.frames
            = quit_example_start.2.frames) := by
  have hfloor : ⌊(quit_example_start.2.delta
      + Run_elapsed quit_example_inputs.now quit_example_start.2.last_time
          quit_example_inputs.frequency) / ms⌋₊ = 3 := by
    rw [Nat.floor_eq_iff
      (by norm_num [ms, Run_elapsed, quit_example_inputs, quit_example_start])]
    norm_num [ms, Run_elapsed, quit_example_inputs, quit_example_start]
  have hbody := Run_iteration_body_eq quit_example_inputs quit_example_start
  rw [hfloor] at hbody
  have hticks : (Run_iteration quit_example_inputs quit_example_start).2.ticks = 3 := by
    unfold Run_iteration
    rw [hbody]
    norm_num [quit_example_inputs, quit_example_start]
  have hframes : (Run_iteration quit_example_inputs quit_example_start).2.frames = 1 := by
    unfold Run_iteration
    rw [hbody]
    norm_num [quit_example_inputs, quit_example_start]
  refine ⟨by decide, hticks, hframes, ?_, ?_⟩
  · rw [Run_iteration_game, hbody]
    rfl
  · rw [hticks, hframes]
    decide

/-- Claim C20. In the state built by the constructor the stored intersection is
`(-1, -1)`, which is not the no-intersection value and for which `Render`
outlines a collision box at `(-6, -6)`; the four centres are `(320, 213)`,
`(640, 213)`, `(320, 426)` and `(640, 426)`, so both initial segments are
horizontal; all velocities are zero, and the first `Tick` leaves all boxes
unchanged and replaces the stored value by the no-intersection value, for
which `Render` outlines nothing. -/
theorem initial_intersection_is_not_sentinel (initialize_result : Bool) :
    (Game.Game initialize_result).lines_intersection_ = ⟨-1, -1⟩
      ∧ (Game.Game initialize_result).lines_intersection_ ≠ ⟨float_max, float_max⟩
      ∧ Render_collision_box (Game.Game initialize_result) = some ⟨-6, -6, 10, 10⟩
      ∧ box_centre ((Game.Game initialize_result).player_boxes_ 0) = ⟨320, 213⟩
      ∧ box_centre ((Game.Game initialize_result).player_boxes_ 1) = ⟨640, 213⟩
      ∧ box_centre ((Game.Game initialize_result).player_boxes_ 2) = ⟨320, 426⟩
      ∧ box_centre ((Game.Game initialize_result).player_boxes_ 3) = ⟨640, 426⟩
      ∧ (∀ i : Fin 4, ((Game.Game initialize_result).player_boxes_ i).vx_ = 0
          ∧ ((Game.Game initialize_result).player_boxes_ i).vy_ = 0)
      ∧ (Tick (Game.Game initialize_result)).player_boxes_
          = (Game.Game initialize_result).player_boxes_
      ∧ (Tick (Game.Game initialize_result)).lines_intersection_ = ⟨float_max, float_max⟩
      ∧ Render_collision_box (Tick (Game.Game initialize_result)) = none := by
  have hstored : (Game.Game initialize_result).lines_intersection_ = ⟨-1, -1⟩ := rfl
  have hboxes : (Tick (Game.Game initialize_result)).player_boxes_
      = (Game.Game initialize_result).player_boxes_ := by
    rw [Tick_player_boxes]
    funext i
    fin_cases i <;> rfl
  have hafter : (Tick (Game.Game initialize_result)).lines_intersection_
      = ⟨float_max, float_max⟩ := by
    rw [Tick_lines_intersection, hboxes]
    apply GetIntersectionPoint_of_det_eq_zero
    norm_num [det, coefficients, LinearEquationCoefficients, box_centre, Game.Game,
      screen_width, screen_height]
  have hc0 : box_centre ((Game.Game initialize_result).player_boxes_ 0) = ⟨320, 213⟩ := by
    have h : ((320 : Int) : ℚ) = 320 ∧ ((213 : Int) : ℚ) = 213 := by norm_num
    exact congrArg₂ SDL_FPoint.mk h.1 h.2
  have hc1 : box_centre ((Game.Game initialize_result).player_boxes_ 1) = ⟨640, 213⟩ := by
    have h : ((640 : Int) : ℚ) = 640 ∧ ((213 : Int) : ℚ) = 213 := by norm_num
    exact congrArg₂ SDL_FPoint.mk h.1 h.2
  have hc2 : box_centre ((Game.Game initialize_result).player_boxes_ 2) = ⟨320, 426⟩ := by
    have h : ((320 : Int) : ℚ) = 320 ∧ ((426 : Int) : ℚ) = 426 := by norm_num
    exact congrArg₂ SDL_FPoint.mk h.1 h.2
  have hc3 : box_centre ((Game.Game initialize_result).player_boxes_ 3) = ⟨640, 426⟩ := by
    have h : ((640 : Int) : ℚ) = 640 ∧ ((426 : Int) : ℚ) = 426 := by norm_num
    exact congrArg₂ SDL_FPoint.mk h.1 h.2
  refine ⟨hstored, ?_, ?_, hc0, hc1, hc2, hc3, ?_, hboxes, hafter, ?_⟩
  · rw [hstored]
    norm_num [float_max]
  · unfold Render_collision_box
    rw [hstored]
    norm_num [float_max]
  · intro i
    fin_cases i <;> exact ⟨rfl, rfl⟩
  · unfold Render_collision_box
    rw [hafter]
    simp


end LinesIntersection
